import Mathlib

/-!
# Verification of the Camunda CI/CD orchestration worker

A shallow embedding of the worker's webhook server, OAuth token manager,
deploy handlers, GitHub review-score parser and GitHub client, translated
from the Python sources under `worker/`, together with theorems settling
the specification claims about them.

Conventions of the embedding:
* Python JSON values are modelled by the inductive `Json`.
* A Python function that can raise an uncaught exception is modelled in the
  `Option` monad (`none` = unhandled exception, which aiohttp turns into an
  HTTP 500).
* External effects (Zeebe publishes, process-instance cancellations over
  REST) are recorded in the returned outcome; network responses from
  external systems enter as explicit oracle arguments.
* Machine integers do not occur: Python ints are unbounded, modelled by
  `Int`/`Nat`.
-/

namespace CamundaWorker

/-- A JSON value as produced by Python's `json.loads`.  Objects keep their
key/value pairs as an association list (Python dict keys are unique; lookup
takes the first match). -/
inductive Json where
  | null : Json
  | bool (b : Bool) : Json
  | num (n : Int) : Json
  | str (s : String) : Json
  | arr (elems : List Json) : Json
  | obj (fields : List (String × Json)) : Json

/-- Python `d.get(k, dflt)` on a value known to be a dict. -/
def dictGet (fields : List (String × Json)) (k : String) (dflt : Json) : Json :=
  (fields.lookup k).getD dflt

/-- Python `j.get(k, dflt)`: defined only when `j` is a dict; on any other
value Python raises `AttributeError` (modelled as `none`). -/
def Json.pyGet (j : Json) (k : String) (dflt : Json) : Option Json :=
  match j with
  | .obj fields => some (dictGet fields k dflt)
  | _ => none

/-- Python `j == s` for a string literal `s` (values of other JSON types
compare unequal to a string). -/
def Json.isStr (j : Json) (s : String) : Bool :=
  match j with
  | .str t => t == s
  | _ => false

/-- Python truthiness of a JSON value. -/
def Json.truthy : Json → Bool
  | .null => false
  | .bool b => b
  | .num n => n != 0
  | .str s => s != ""
  | .arr elems => !elems.isEmpty
  | .obj fields => !fields.isEmpty

/-- Splitting on a single-character separator, as Python `s.split(sep)`:
`acc` accumulates the current field in reverse. -/
def pySplitAux (sep : Char) : List Char → List Char → List (List Char)
  | [], acc => [acc.reverse]
  | c :: rest, acc =>
      if c == sep then acc.reverse :: pySplitAux sep rest []
      else pySplitAux sep rest (c :: acc)

/-- Python `s.split(sep)` for a one-character separator (every separator
the worker splits on — `","`, `"\n"`, `":"` — is one character). -/
def pySplit (sep : Char) (s : String) : List String :=
  (pySplitAux sep s.toList []).map (fun cs => ⟨cs⟩)

/-- Python `s.strip()`: whitespace removed from both ends. -/
def pyStrip (s : String) : String :=
  ⟨((s.toList.dropWhile Char.isWhitespace).reverse.dropWhile
      Char.isWhitespace).reverse⟩

/-- Python `str()` of a JSON value.  Scalars are rendered exactly as Python
renders them; the rendering of containers is abbreviated (no handler under
verification converts a container to a string). -/
def Json.pyStr : Json → String
  | .null => "None"
  | .bool true => "True"
  | .bool false => "False"
  | .num n => toString n
  | .str s => s
  | .arr _ => "[...]"
  | .obj _ => "\x7b...\x7d"

/-! ## OAuth token manager (`worker/worker.py`, class `TokenManager`)

`get_token` under the lock is a pure state transformer once the wall clock
and the token endpoint's response are made explicit.  Time is in seconds
(Python uses a float clock; integer instants suffice for the claims). -/

/-- Cached-token state: `_token` and `_token_expiry` of `TokenManager`
(initially `None` and `0`). -/
structure TokenState where
  token : Option String
  expiry : Int

/-- The token endpoint's JSON reply: `access_token` and the optional
`expires_in` field (`data.get("expires_in", 300)`). -/
structure TokenResponse where
  access_token : String
  expires_in : Option Int

/-- Python `TokenManager._fetch_new_token`: caches the fetched token with expiry
`now + expires_in` (default 300) and returns it. -/
def fetch_new_token (now : Int) (resp : TokenResponse) : String × TokenState :=
  (resp.access_token,
   ⟨some resp.access_token, now + resp.expires_in.getD 300⟩)

/-- Python `TokenManager.get_token`: returns the cached token unless it is absent
or `now >= expiry - 60`, in which case it fetches a new one. -/
def get_token (now : Int) (resp : TokenResponse) (s : TokenState) :
    String × TokenState :=
  match s.token with
  | none => fetch_new_token now resp
  | some t =>
      if now ≥ s.expiry - 60 then fetch_new_token now resp
      else (t, s)

/-! ## Deploy handlers (`worker/handlers/deploy.py`)

`git-pull`, `save-deploy-state` and the decision logic of `module-update`
as pure functions of the remote repository state / of their inputs. -/

/-- Remote repository state relevant to `git-pull`/`save-deploy-state` for
one server and branch: the deploy-state file's (stripped) content if the
file exists, the commit currently at `origin/<branch>` (what a fetch
obtains), and the checked-out `HEAD`. -/
structure RepoState where
  deployState : Option String
  originCommit : String
  head : String

/-- Result variables returned by the `git-pull` handler. -/
structure GitPullResult where
  old_commit : String
  new_commit : String
  has_changes : Bool

/-- The `git-pull` handler: reads the previous HEAD from the deploy-state
file (`cat … || echo none`, stripped), fetches and checks out
`-B <branch> origin/<branch>`, reads the new HEAD, and returns
`{old_commit, new_commit, has_changes}`.  It does not write the state
file. -/
def git_pull (s : RepoState) : GitPullResult × RepoState :=
  let old_commit := s.deployState.getD "none"
  let s' : RepoState := { s with head := s.originCommit }
  let new_commit := s.originCommit
  (⟨old_commit, new_commit, old_commit != new_commit⟩, s')

/-- The `save-deploy-state` handler: writes `new_commit` into the
deploy-state file (`echo '<sha>' > …`). -/
def save_deploy_state (new_commit : String) (s : RepoState) : RepoState :=
  { s with deployState := some new_commit }

/-- The `module-update` handler's parsing of its `changed_modules` input:
`[m.strip() for m in changed_modules.split(",") if m.strip()]`. -/
def moduleList (changed_modules : String) : List String :=
  ((pySplit ',' changed_modules).map pyStrip).filter (· != "")

/-- The `module-update` handler's view of the DB reply: `result.stdout.strip().split("\n")`
(set membership below equals list membership). -/
def installedModules (dbStdout : String) : List String :=
  pySplit '\n' (pyStrip dbStdout)

/-- The requested modules that are installed:
`[m for m in module_list if m in installed]`. -/
def requestedInstalled (changed_modules dbStdout : String) : List String :=
  (moduleList changed_modules).filter (fun m => (installedModules dbStdout).contains m)

/-- Outcome of the `module-update` handler: the `modules_updated` output
variable, and the `-u` argument of the `odoo-bin` update command that was
run (`none` when the handler returned without running any update). -/
structure ModuleUpdateResult where
  modules_updated : String
  updated : Option String

/-- The decision logic of the `module-update` handler (`deploy.py`,
`module_update`): empty input returns immediately with no update; `"all"`
updates all; otherwise the requested∩installed modules are updated, with
escalation to `"all"` when more than 10 of them, and an early return when
none. -/
def module_update_decide (changed_modules dbStdout : String) : ModuleUpdateResult :=
  if changed_modules == "" then ⟨"", none⟩
  else
    let update_modules :=
      if changed_modules == "all" then "all"
      else
        let update_mods := requestedInstalled changed_modules dbStdout
        if update_mods.length > 10 then "all"
        else if update_mods.isEmpty then ""
        else ",".intercalate update_mods
    if update_modules == "" then ⟨"", none⟩
    else ⟨update_modules, some update_modules⟩

/-! ## Review-score parsing (`worker/handlers/github.py`, `_parse_review_score`)

The two regexes are translated character-by-character:
`re.sub(r"<[^>]+>", "", body)` and
`re.search(r"[Ss]core[^0-9]*(\d+)", clean)` with the `🏅` fallback.
`\d` is modelled as the ASCII digits (the handler's inputs are PR-Agent
comments written with ASCII digits). -/

/-- Index of the first `>` in the list, if any. -/
def findGtIdx : List Char → Option Nat
  | [] => none
  | c :: rest => if c == '>' then some 0 else (findGtIdx rest).map (· + 1)

/-- One pass of `re.sub(r"<[^>]+>", "", …)`: at each `<`, the regex consumes
through the first subsequent `>` provided at least one character stands
between (so `<>` is not a match).  `fuel` bounds the recursion; it is
initialised to the list length, which the scan never exceeds because each
step consumes at least one character. -/
def stripHtmlFuel : Nat → List Char → List Char
  | 0, l => l
  | _ + 1, [] => []
  | fuel + 1, c :: rest =>
      if c == '<' then
        match findGtIdx rest with
        | some k =>
            if 1 ≤ k then stripHtmlFuel fuel (rest.drop (k + 1))
            else c :: stripHtmlFuel fuel rest
        | none => c :: stripHtmlFuel fuel rest
      else c :: stripHtmlFuel fuel rest

/-- Python `re.sub(r"<[^>]+>", "", body)` over the body's characters. -/
def stripHtml (body : String) : List Char :=
  stripHtmlFuel body.toList.length body.toList

/-- Value of the maximal digit run at the head of the list. -/
def digitRunVal (l : List Char) : Nat :=
  (l.takeWhile Char.isDigit).foldl (fun a c => a * 10 + (c.toNat - '0'.toNat)) 0

/-- Pattern `[^0-9]*(\d+)`: the number formed by the first digit run in the list,
if the list contains a digit at all. -/
def firstNumber : List Char → Option Nat
  | [] => none
  | c :: rest =>
      if c.isDigit then some (digitRunVal (c :: rest)) else firstNumber rest

/-- Python `re.search(r"[Ss]core[^0-9]*(\d+)", …)`: the leftmost occurrence of
`[Ss]core` that is followed (after any non-digits) by a digit run yields
that run's value; occurrences with no later digit make the search continue
at the next position. -/
def scoreNum : List Char → Option Nat
  | [] => none
  | c :: rest =>
      if (c == 'S' || c == 's') && ['c', 'o', 'r', 'e'].isPrefixOf rest then
        match firstNumber (rest.drop 4) with
        | some n => some n
        | none => scoreNum rest
      else scoreNum rest

/-- Python `re.search(r"🏅[^0-9]*(\d+)", …)`: the emoji fallback pattern. -/
def emojiNum : List Char → Option Nat
  | [] => none
  | c :: rest =>
      if c == '🏅' then
        match firstNumber rest with
        | some n => some n
        | none => emojiNum rest
      else emojiNum rest

/-- The number matched by `_parse_review_score`'s regexes on the
HTML-stripped body: the `Score` pattern first, then the emoji fallback. -/
def matchedScoreNumber (body : String) : Option Nat :=
  let clean := stripHtml body
  match scoreNum clean with
  | some n => some n
  | none => emojiNum clean

/-- Function `_parse_review_score`: strip HTML, match the score patterns, return 0
on no match, and integer-divide by 10 once when the number exceeds 10. -/
def parse_review_score (body : String) : Nat :=
  match matchedScoreNumber body with
  | none => 0
  | some score => if score > 10 then score / 10 else score

/-! ## GitHub client (`worker/github_client.py`) -/

/-- An outbound HTTP request as assembled by `GitHubClient`. -/
structure HttpRequest where
  method : String
  url : String
  headers : List (String × String)
  body : Json

/-- Python `GitHubClient._headers`: the deploy PAT is used only when requested
*and* non-empty; otherwise the regular token. -/
def gh_headers (token deploy_pat : String) (use_deploy_pat : Bool) :
    List (String × String) :=
  let tok := if use_deploy_pat && deploy_pat != "" then deploy_pat else token
  [("Authorization", "Bearer " ++ tok),
   ("Accept", "application/vnd.github+json"),
   ("X-GitHub-Api-Version", "2022-11-28")]

/-- Python `GitHubClient.create_pr`: `POST /repos/{repo}/pulls` with
`use_deploy_pat=True`. -/
def create_pr (token deploy_pat repo head base title body : String)
    (draft : Bool) : HttpRequest :=
  { method := "POST"
    url := "https://api.github.com" ++ "/repos/" ++ repo ++ "/pulls"
    headers := gh_headers token deploy_pat true
    body := Json.obj
      [("head", .str head), ("base", .str base), ("title", .str title),
       ("body", .str body), ("draft", .bool draft)] }

/-! ## Job-runtime outcome mapping

Modelled from the spec: the dispatcher that converts a handler's return
value or exception into the outcome reported to the engine is part of the
job runtime (spec §4.6 "Outcome mapping"), whose module is not among the
sources (only the handlers and their registration are).  The definitions
below follow the spec's words. -/

/-- A raised Python exception as seen by the dispatcher: its class name
and its text. -/
structure PyException where
  class_name : String
  message : String

/-- Modelled from the spec: the "truncated exception text" used as the
BpmnError message.  The spec states truncation without giving the bound;
a 1000-character cap is used as the concrete bound. -/
def truncate_message (s : String) : String := s.take 1000

/-- The outcome the runtime reports to the engine for one leased job. -/
inductive JobOutcome where
  | completed (vars : List (String × Json)) : JobOutcome
  | failed (message : String) : JobOutcome
  | bpmnError (code message : String) : JobOutcome

/-- Modelled from the spec (§4.6 "Outcome mapping"): a returned variables
map completes the job; an exception with `retries_remaining > 1` fails it
with `"Failed job. Error: " + message`; an exception with
`retries_remaining ≤ 1` becomes a BpmnError carrying the exception's class
name and truncated text. -/
def job_outcome (retries_remaining : Int)
    (result : Except PyException (List (String × Json))) : JobOutcome :=
  match result with
  | .ok vars => .completed vars
  | .error e =>
      if retries_remaining > 1 then
        .failed ("Failed job. Error: " ++ e.message)
      else
        .bpmnError e.class_name (truncate_message e.message)

/-! ## Webhook server (`worker/webhook.py`, class `WebhookServer`)

Request handlers become pure functions of the request (headers, raw body,
parsed JSON, query parameters), the relevant configuration, and oracles
for the external calls (HMAC-SHA256, the Zeebe publish, the engine REST
cancellation).  The returned `WebOutcome` records the HTTP response, every
message handed to `publish_message`, and every process-instance key whose
cancellation was requested over REST. -/

/-- The per-server settings the webhook flattens into message variables
(`worker/config.py`, `ServerConfig`; the ports play no role here). -/
structure ServerConfig where
  host : String
  ssh_user : String
  repo_dir : String
  db_name : String
  container : String

/-- The configuration slice the webhook server reads. -/
structure WebhookCfg where
  webhook_secret : String
  repository : String
  odoo_webhook_token : String
  servers : List (String × ServerConfig)

/-- A Zeebe correlation message as passed to `client.publish_message`.
The code passes the raw payload value as `correlation_key`, hence `Json`. -/
structure Message where
  name : String
  correlation_key : Json
  vars : List (String × Json)

/-- An HTTP response: status code plus JSON body (plain-text responses are
wrapped in `Json.str`). -/
structure WebResponse where
  status : Nat
  body : Json

/-- The observable outcome of one webhook request: the response, the
messages handed to `publish_message`, and the process-instance keys posted
to the engine's cancellation endpoint. -/
structure WebOutcome where
  resp : WebResponse
  sent : List Message
  cancels : List String

/-- Python `WebhookServer._verify_github_signature`: the header must start with
`sha256=` and equal (in constant time) `sha256=` followed by the
HMAC-SHA256 hex digest of the raw body under the secret.  `hmacHex` is the
digest function, abstract here. -/
def verify_github_signature (hmacHex : String → List Nat → String)
    (body : List Nat) (secret signature : String) : Bool :=
  "sha256=".toList.isPrefixOf signature.toList &&
    (("sha256=" ++ hmacHex secret body) == signature)

/-- The five prefixed variables injected for one configured server. -/
def serverFields (pfx : String) (s : ServerConfig) : List (String × Json) :=
  [(pfx ++ "_host", .str s.host),
   (pfx ++ "_ssh_user", .str s.ssh_user),
   (pfx ++ "_repo_dir", .str s.repo_dir),
   (pfx ++ "_db", .str s.db_name),
   (pfx ++ "_container", .str s.container)]

/-- Code `if server: variables.update(…)` for an optional server entry. -/
def optServerFields (pfx : String) : Option ServerConfig → List (String × Json)
  | some s => serverFields pfx s
  | none => []

/-- Python `WebhookServer._publish_pr_event`: builds the variable map (PR
metadata plus the flattened staging/production server settings) and
publishes `msg_pr_event` correlated by `variables.get("head_branch", "")`.
On a publish failure the 502 body's exception text is abstracted. -/
def publish_pr_event (cfg : WebhookCfg) (pr payload : Json)
    (publishOk : Bool) : Option WebOutcome := do
  let pr_number ← pr.pyGet "number" (.num 0)
  let repoOuter ← payload.pyGet "repository" (.obj [])
  let repo_full ← repoOuter.pyGet "full_name" (.str cfg.repository)
  let pr_url ← pr.pyGet "html_url" (.str "")
  let pr_title ← pr.pyGet "title" (.str "")
  let userJ ← pr.pyGet "user" (.obj [])
  let pr_author ← userJ.pyGet "login" (.str "")
  let baseJ ← pr.pyGet "base" (.obj [])
  let base_branch ← baseJ.pyGet "ref" (.str "staging")
  let headJ ← pr.pyGet "head" (.obj [])
  let head_branch ← headJ.pyGet "ref" (.str "")
  let vars :=
    [("pr_number", pr_number), ("pr_url", pr_url), ("pr_title", pr_title),
     ("pr_author", pr_author), ("repository", repo_full),
     ("base_branch", base_branch), ("head_branch", head_branch)]
    ++ optServerFields "staging" (cfg.servers.lookup "staging")
    ++ optServerFields "production" (cfg.servers.lookup "production")
  let msg : Message := ⟨"msg_pr_event", dictGet vars "head_branch" (.str ""), vars⟩
  if publishOk then
    return ⟨⟨200, .obj [("status", .str "published"),
                        ("message", .str "msg_pr_event"),
                        ("pr_number", pr_number)]⟩, [msg], []⟩
  else
    return ⟨⟨502, .str "Zeebe publish failed"⟩, [msg], []⟩

/-- Python `WebhookServer._publish_pr_updated`: publishes `msg_pr_updated`
correlated by `str(pr_number)`. -/
def publish_pr_updated (pr : Json) (publishOk : Bool) : Option WebOutcome := do
  let pr_number ← pr.pyGet "number" (.num 0)
  let headJ ← pr.pyGet "head" (.obj [])
  let head_sha ← headJ.pyGet "sha" (.str "")
  let msg : Message :=
    ⟨"msg_pr_updated", .str pr_number.pyStr,
     [("pr_updated", .bool true), ("head_sha", head_sha)]⟩
  if publishOk then
    return ⟨⟨200, .obj [("status", .str "published"),
                        ("message", .str "msg_pr_updated"),
                        ("pr_number", pr_number)]⟩, [msg], []⟩
  else
    return ⟨⟨502, .str "Zeebe publish failed"⟩, [msg], []⟩

/-- Python `WebhookServer._route_pr_event`: ignore (200) unless the base branch is
`staging`; `opened`/`reopened`/`ready_for_review` publish `msg_pr_event`;
`synchronize` publishes `msg_pr_updated`; other actions are ignored. -/
def route_pr_event (cfg : WebhookCfg) (payload : Json)
    (publishOk : Bool) : Option WebOutcome := do
  let action ← payload.pyGet "action" (.str "")
  let pr ← payload.pyGet "pull_request" (.obj [])
  let baseJ ← pr.pyGet "base" (.obj [])
  let base_branch ← baseJ.pyGet "ref" (.str "")
  let _pr_number ← pr.pyGet "number" (.num 0)
  if !(base_branch.isStr "staging") then
    return ⟨⟨200, .obj [("status", .str "ignored"),
                        ("reason", .str ("base_branch=" ++ base_branch.pyStr))]⟩,
            [], []⟩
  else if action.isStr "opened" || action.isStr "reopened"
      || action.isStr "ready_for_review" then
    publish_pr_event cfg pr payload publishOk
  else if action.isStr "synchronize" then
    publish_pr_updated pr publishOk
  else
    return ⟨⟨200, .obj [("status", .str "ignored"), ("action", action)]⟩, [], []⟩

/-- Python `WebhookServer._handle_github`: 500 when no secret is configured, 401
on a failed signature check, 400 on a JSON decode error, routing for
`pull_request` events, 200-ignore otherwise.  `parsed` is the result of
`json.loads(body)` (`none` = decode error). -/
def handle_github (hmacHex : String → List Nat → String) (cfg : WebhookCfg)
    (signature event : String) (body : List Nat) (parsed : Option Json)
    (publishOk : Bool) : Option WebOutcome :=
  if cfg.webhook_secret == "" then
    some ⟨⟨500, .str "Webhook secret not configured"⟩, [], []⟩
  else if !(verify_github_signature hmacHex body cfg.webhook_secret signature) then
    some ⟨⟨401, .str "Invalid signature"⟩, [], []⟩
  else
    match parsed with
    | none => some ⟨⟨400, .str "Invalid JSON"⟩, [], []⟩
    | some payload =>
        if event == "pull_request" then route_pr_event cfg payload publishOk
        else some ⟨⟨200, .obj [("status", .str "ignored"),
                               ("event", .str event)]⟩, [], []⟩

/-- Python `WebhookServer._cancel_process_instance`: POSTs the cancellation for
`pik`; the engine's reply status (`none` = transport exception) maps
200/204 to "cancelled", 404 to "already_terminated", anything else to a
502. -/
def cancel_process_instance (pik : String) (cancelHttp : Option Nat) :
    WebOutcome :=
  match cancelHttp with
  | some status =>
      if status == 200 || status == 204 then
        ⟨⟨200, .obj [("status", .str "cancelled"),
                     ("process_instance_key", .str pik)]⟩, [], [pik]⟩
      else if status == 404 then
        ⟨⟨200, .obj [("status", .str "already_terminated"),
                     ("process_instance_key", .str pik)]⟩, [], [pik]⟩
      else
        ⟨⟨502, .str ("Cancel failed: HTTP " ++ toString status)⟩, [], [pik]⟩
  | none => ⟨⟨502, .str "Cancel failed"⟩, [], [pik]⟩

/-- The body-parsing-and-routing part of `WebhookServer._handle_odoo`
(everything after token verification).  `qaction` is the `?action=` query
parameter, `payload` the result of `request.json()` (`none` = decode
error). -/
def odoo_route (qaction : Option String) (payload : Option Json)
    (cancelHttp : Option Nat) (publishOk : Bool) : Option WebOutcome :=
  match payload with
  | none => some ⟨⟨400, .str "Invalid JSON"⟩, [], []⟩
  | some j => do
      let tidJ ← j.pyGet "task_id" (.str "")
      let task_id := tidJ.pyStr
      let pikRaw ← j.pyGet "process_instance_key" (.str "")
      let xpikRaw ← j.pyGet "x_studio_camunda_process_instance_key" (.str "")
      let pik := (if pikRaw.truthy then pikRaw else xpikRaw).pyStr
      let action ← j.pyGet "action" (.str (qaction.getD "done"))
      let correlation_key := if task_id != "" then task_id else pik
      if correlation_key == "" then
        return ⟨⟨400, .str "Missing task_id or process_instance_key"⟩, [], []⟩
      else if action.isStr "cancel" && pik != "" then
        return cancel_process_instance pik cancelHttp
      else
        let msg : Message :=
          ⟨"msg_odoo_task_done", .str correlation_key,
           [("odoo_task_resolved", .bool true)]⟩
        if publishOk then
          return ⟨⟨200, .obj [("status", .str "published"),
                              ("message", .str "msg_odoo_task_done"),
                              ("correlation_key", .str correlation_key)]⟩,
                  [msg], []⟩
        else
          return ⟨⟨502, .str "Zeebe publish failed"⟩, [msg], []⟩

/-- The token `_handle_odoo` compares against the configured one: the
`Authorization` header after `removeprefix('Bearer ')` and `strip()`,
falling back to the `?token=` query parameter when empty. -/
def odoo_request_token (auth_header qtoken : String) : String :=
  let fromHeader :=
    pyStrip (if "Bearer ".toList.isPrefixOf auth_header.toList
             then ⟨auth_header.toList.drop 7⟩
             else auth_header)
  if fromHeader != "" then fromHeader else qtoken

/-- Python `WebhookServer._handle_odoo`: when a token is configured, the request
token must equal it (compared in constant time), else 401; then the body
is parsed and routed. -/
def handle_odoo (expected_token auth_header qtoken : String)
    (qaction : Option String) (payload : Option Json)
    (cancelHttp : Option Nat) (publishOk : Bool) : Option WebOutcome :=
  if expected_token != "" then
    if !(odoo_request_token auth_header qtoken == expected_token) then
      some ⟨⟨401, .str "Invalid token"⟩, [], []⟩
    else odoo_route qaction payload cancelHttp publishOk
  else odoo_route qaction payload cancelHttp publishOk

/-! ### Structured payloads used in the theorem statements -/

/-- A singleton field when the key is present, nothing when absent. -/
def optEntry (k : String) : Option Json → List (String × Json)
  | some v => [(k, v)]
  | none => []

/-- The `pull_request` object of a well-formed GitHub PR webhook payload. -/
def prJson (pr_number : Int) (purl title login base_ref head_ref sha : String) :
    Json :=
  .obj [("number", .num pr_number), ("html_url", .str purl),
        ("title", .str title), ("user", .obj [("login", .str login)]),
        ("base", .obj [("ref", .str base_ref)]),
        ("head", .obj [("ref", .str head_ref), ("sha", .str sha)])]

/-- A well-formed GitHub `pull_request` webhook payload. -/
def prPayload (action : String) (pr : Json) (rfn : String) : Json :=
  .obj [("action", .str action), ("pull_request", pr),
        ("repository", .obj [("full_name", .str rfn)])]

/-- An Odoo webhook body with each of the four recognised keys present or
absent. -/
def odooPayload (task_id pik xpik act : Option Json) : Json :=
  .obj (optEntry "task_id" task_id ++ optEntry "process_instance_key" pik ++
        optEntry "x_studio_camunda_process_instance_key" xpik ++
        optEntry "action" act)

/-! ## Shared helper lemmas -/

theorem intercalate_go_length_le (as : List String) (s acc : String) :
    acc.length ≤ (String.intercalate.go acc s as).length := by
  induction as generalizing acc with
  | nil => simp [String.intercalate.go]
  | cons a as ih =>
      have h := ih (acc ++ s ++ a)
      simp only [String.intercalate.go]
      calc acc.length ≤ (acc ++ s ++ a).length := by
            simp [String.length_append]; omega
        _ ≤ _ := h

theorem intercalate_ne_empty (x : String) (xs : List String) (hx : x ≠ "") :
    String.intercalate "," (x :: xs) ≠ "" := by
  intro h
  have h1 : x.length ≤ (String.intercalate "," (x :: xs)).length := by
    simpa [String.intercalate] using intercalate_go_length_le xs "," x
  rw [h] at h1
  simp at h1
  apply hx
  cases x with
  | mk data =>
      simp [String.length] at h1
      simp [h1]

theorem requestedInstalled_head_ne_empty (cm db x : String) (xs : List String)
    (h : requestedInstalled cm db = x :: xs) : x ≠ "" := by
  have hx : x ∈ requestedInstalled cm db := by
    rw [h]; exact List.mem_cons_self x xs
  have hx2 : x ∈ moduleList cm := List.mem_of_mem_filter hx
  have hx3 := (List.mem_filter.mp hx2).2
  simpa using hx3

theorem cancel_status_ne_401 (pik : String) (o : Option Nat) :
    (cancel_process_instance pik o).resp.status ≠ 401 := by
  cases o with
  | none => simp [cancel_process_instance]
  | some n =>
      simp only [cancel_process_instance]
      split
      · simp
      · split <;> simp

theorem odoo_route_status_ne_401 (qaction : Option String)
    (payload : Option Json) (cancelHttp : Option Nat) (publishOk : Bool)
    (out : WebOutcome) (h : odoo_route qaction payload cancelHttp publishOk = some out) :
    out.resp.status ≠ 401 := by
  cases payload with
  | none =>
      simp only [odoo_route, Option.some.injEq] at h
      subst h; simp
  | some j =>
      cases j with
      | obj fs =>
          simp only [odoo_route, Json.pyGet, Option.bind_eq_bind,
            Option.some_bind, Option.pure_def] at h
          iterate 8 (all_goals try split at h)
          all_goals simp only [Option.some.injEq] at h
          all_goals subst h
          all_goals first
            | exact cancel_status_ne_401 _ _
            | simp
      | null => simp [odoo_route, Json.pyGet] at h
      | bool b => simp [odoo_route, Json.pyGet] at h
      | num n => simp [odoo_route, Json.pyGet] at h
      | str s => simp [odoo_route, Json.pyGet] at h
      | arr elems => simp [odoo_route, Json.pyGet] at h

theorem handle_odoo_auth_ok (expected auth qtoken : String)
    (qaction : Option String) (payload : Option Json)
    (cancelHttp : Option Nat) (publishOk : Bool)
    (hauth : expected = "" ∨ odoo_request_token auth qtoken = expected) :
    handle_odoo expected auth qtoken qaction payload cancelHttp publishOk =
      odoo_route qaction payload cancelHttp publishOk := by
  rcases hauth with h | h
  · subst h; simp [handle_odoo]
  · by_cases he : expected = ""
    · subst he; simp [handle_odoo]
    · have he2 : (expected != "") = true := by simpa using he
      simp [handle_odoo, he2, h]

/-! ## Claim theorems -/

/-- C1: for every job whose handler raises while `retries_remaining ≤ 1`,
the runtime reports a BpmnError whose code is the exception's class name
and whose message is the truncated exception text — never a Failed
outcome. -/
theorem c1_last_retry_bpmn_error (retries : Int) (e : PyException)
    (h : retries ≤ 1) :
    job_outcome retries (.error e) =
      .bpmnError e.class_name (truncate_message e.message) ∧
    ∀ m, job_outcome retries (.error e) ≠ .failed m := by
  have hn : ¬ retries > 1 := by omega
  exact ⟨by simp [job_outcome, hn], fun m => by simp [job_outcome, hn]⟩

theorem c1_last_retry_bpmn_error_witness :
    job_outcome 1 (.error ⟨"RemoteCommandFailed", "network"⟩) =
      .bpmnError "RemoteCommandFailed" (truncate_message "network") ∧
    ∀ m, job_outcome 1 (.error ⟨"RemoteCommandFailed", "network"⟩) ≠ .failed m :=
  c1_last_retry_bpmn_error 1 ⟨"RemoteCommandFailed", "network"⟩ (by decide)

/-- C3 counterexample: with the cache empty at time 0 and the token
endpoint answering `expires_in = 10`, `get_token` returns the freshly
fetched token although its remaining lifetime (10 s) is under 60 s, so the
manager does not guarantee a returned token has 60 s of life left. -/
theorem c3_counterexample :
    (get_token 0 ⟨"tok", some 10⟩ ⟨none, 0⟩).1 = "tok" ∧
    (get_token 0 ⟨"tok", some 10⟩ ⟨none, 0⟩).2.token = some "tok" ∧
    (get_token 0 ⟨"tok", some 10⟩ ⟨none, 0⟩).2.expiry - 0 < 60 :=
  ⟨rfl, rfl, by decide⟩

/-- C3 (amended): `get_token` returns the cached token exactly when it
exists with more than 60 s until expiry, and otherwise fetches and caches;
the returned token is always the cached one, and — provided each fetched
token's `expires_in` (default 300) is at least 60 s — the returned token
always has at least 60 s of remaining lifetime.  A fetched token with a
smaller `expires_in` is returned as-is (see the counterexample). -/
theorem c3_token_cache_amended (now : Int) (resp : TokenResponse)
    (s : TokenState) :
    (s.token = none ∨ now ≥ s.expiry - 60 →
        get_token now resp s = fetch_new_token now resp) ∧
    (∀ t, s.token = some t → now < s.expiry - 60 →
        get_token now resp s = (t, s)) ∧
    (resp.expires_in.getD 300 ≥ 60 →
        (get_token now resp s).2.expiry - now ≥ 60) ∧
    (get_token now resp s).2.token = some (get_token now resp s).1 := by
  cases hs : s.token with
  | none =>
      refine ⟨fun _ => by simp [get_token, hs], ?_, ?_, ?_⟩
      · intro t ht hlt; simp at ht
      · intro he
        simp only [get_token, hs, fetch_new_token]
        omega
      · simp [get_token, hs, fetch_new_token]
  | some t =>
      by_cases hge : now ≥ s.expiry - 60
      · refine ⟨fun _ => by simp [get_token, hs, hge], ?_, ?_, ?_⟩
        · intro t' ht' hlt; omega
        · intro he
          simp only [get_token, hs, if_pos hge, fetch_new_token]
          omega
        · simp [get_token, hs, hge, fetch_new_token]
      · refine ⟨?_, ?_, ?_, ?_⟩
        · rintro (h | h)
          · simp at h
          · exact absurd h hge
        · intro t' ht' _
          injection ht' with ht'
          simp [get_token, hs, hge, ht']
        · intro _
          simp only [get_token, hs, if_neg hge]
          omega
        · simp [get_token, hs, hge]

theorem c3_token_cache_amended_witness :
    get_token 0 ⟨"new", some 300⟩ ⟨some "old", 500⟩ = ("old", ⟨some "old", 500⟩) ∧
    (get_token 0 ⟨"new", some 300⟩ ⟨some "old", 500⟩).2.expiry - 0 ≥ 60 :=
  ⟨(c3_token_cache_amended 0 ⟨"new", some 300⟩ ⟨some "old", 500⟩).2.1 "old" rfl
      (by decide),
   (c3_token_cache_amended 0 ⟨"new", some 300⟩ ⟨some "old", 500⟩).2.2.1
      (by decide)⟩

/-- C4 counterexample: with an empty module list the handler returns
immediately with `modules_updated = ""` and runs no update at all — it
does not update all modules as the claim states. -/
theorem c4_counterexample :
    module_update_decide "" "base\nweb" = ⟨"", none⟩ ∧
    (module_update_decide "" "base\nweb").updated ≠ some "all" :=
  ⟨rfl, by decide⟩

/-- C4 (amended): an empty module list updates nothing; `"all"` updates
all; otherwise only the requested modules that are installed are updated,
escalating to all when more than 10 of them, and updating nothing when
none of them is installed. -/
theorem c4_module_update_amended (cm db : String) :
    (cm = "" → module_update_decide cm db = ⟨"", none⟩) ∧
    (cm = "all" → module_update_decide cm db = ⟨"all", some "all"⟩) ∧
    (cm ≠ "" → cm ≠ "all" →
      ((requestedInstalled cm db).length > 10 →
          module_update_decide cm db = ⟨"all", some "all"⟩) ∧
      (requestedInstalled cm db = [] →
          module_update_decide cm db = ⟨"", none⟩) ∧
      ((requestedInstalled cm db).length ≤ 10 →
          requestedInstalled cm db ≠ [] →
          module_update_decide cm db =
            ⟨String.intercalate "," (requestedInstalled cm db),
             some (String.intercalate "," (requestedInstalled cm db))⟩)) := by
  have hMU : ∀ h1 : cm ≠ "", (cm == "") = false := fun h1 => by
    simpa using h1
  refine ⟨?_, ?_, ?_⟩
  · intro h; subst h; rfl
  · intro h; subst h; rfl
  · intro h1 h2
    have e1 : (cm == "") = false := by simpa using h1
    have e2 : (cm == "all") = false := by simpa using h2
    refine ⟨?_, ?_, ?_⟩
    · intro hlen
      simp [module_update_decide, e1, e2, hlen]
    · intro hempty
      simp [module_update_decide, e1, e2, hempty]
    · intro hlen hne
      obtain ⟨x, xs, hx⟩ : ∃ x xs, requestedInstalled cm db = x :: xs := by
        cases hc : requestedInstalled cm db with
        | nil => exact absurd hc hne
        | cons a as => exact ⟨a, as, rfl⟩
      have hxne := requestedInstalled_head_ne_empty cm db x xs hx
      have hjoin : String.intercalate "," (requestedInstalled cm db) ≠ "" := by
        rw [hx]; exact intercalate_ne_empty x xs hxne
      have hlen2 : ¬ (requestedInstalled cm db).length > 10 := by omega
      have hisEmpty : (requestedInstalled cm db).isEmpty = false := by
        rw [hx]; rfl
      have hjoinb :
          (String.intercalate "," (requestedInstalled cm db) == "") = false := by
        simpa using hjoin
      simp [module_update_decide, e1, e2, hlen2, hisEmpty, hjoinb]

theorem c4_module_update_amended_witness :
    module_update_decide "sale,crm" "sale\nstock" =
      ⟨String.intercalate "," (requestedInstalled "sale,crm" "sale\nstock"),
       some (String.intercalate ","
         (requestedInstalled "sale,crm" "sale\nstock"))⟩ :=
  (((c4_module_update_amended "sale,crm" "sale\nstock").2.2
      (by decide) (by decide)).2.2 (by decide) (by decide))

/-- C5 counterexample: on the body `"Score: 110"` the parser matches 110,
divides by 10 once and returns 11 — outside `{0, …, 10}`. -/
theorem c5_counterexample :
    parse_review_score "Score: 110" = 11 ∧
    ¬ parse_review_score "Score: 110" ≤ 10 := by decide

/-- C5 (amended): HTML is stripped, the first number after
`Score`/`score` (or the emoji fallback) is taken and a missing match
yields 0; a matched number greater than 10 is integer-divided by 10 once,
so the parsed score lies in `{0, …, 10}` for every body whose matched
number is at most 109 (in particular for genuine 0–100 scale scores),
while a matched number of 110 or more yields a score above 10. -/
theorem c5_review_score_amended (body : String) :
    (matchedScoreNumber body = none → parse_review_score body = 0) ∧
    (∀ n, matchedScoreNumber body = some n → n ≤ 109 →
        parse_review_score body ≤ 10) := by
  constructor
  · intro h; simp [parse_review_score, h]
  · intro n h hn
    simp only [parse_review_score, h]
    split
    · omega
    · omega

theorem c5_review_score_amended_witness :
    parse_review_score "Score: 92" ≤ 10 :=
  (c5_review_score_amended "Score: 92").2 92 rfl (by decide)

/-- C8 counterexample: starting with no deploy-state file and upstream
commit `abc`, the second of two consecutive `git-pull` calls (no upstream
change in between) still reports `has_changes = true`, because `git-pull`
never writes the state file. -/
theorem c8_counterexample :
    (git_pull (git_pull ⟨none, "abc", "xyz"⟩).2).1.has_changes = true := by
  decide

/-- C8 (amended): a second `git-pull` with no upstream change repeats the
first call's `has_changes` verbatim (the deploy-state file is only written
by `save-deploy-state`); when a successful `save-deploy-state` of the
first call's `new_commit` runs between the two calls, the second call
yields `has_changes = false`. -/
theorem c8_git_pull_amended (s : RepoState) :
    (git_pull (git_pull s).2).1.has_changes = (git_pull s).1.has_changes ∧
    (git_pull (save_deploy_state (git_pull s).1.new_commit
        (git_pull s).2)).1.has_changes = false := by
  constructor
  · rfl
  · simp [git_pull, save_deploy_state]

/-- C2: a POST to `/webhook/github` whose `X-Hub-Signature-256` header
does not verify as an HMAC-SHA256 of the raw body under the configured
(non-empty) secret — including a missing (empty) or malformed header — is
answered 401 with no message published to the engine. -/
theorem c2_bad_signature_rejected (hmacHex : String → List Nat → String)
    (cfg : WebhookCfg) (signature event : String) (body : List Nat)
    (parsed : Option Json) (publishOk : Bool)
    (hsecret : cfg.webhook_secret ≠ "")
    (hsig : verify_github_signature hmacHex body cfg.webhook_secret
      signature = false) :
    handle_github hmacHex cfg signature event body parsed publishOk =
      some ⟨⟨401, .str "Invalid signature"⟩, [], []⟩ := by
  have h1 : (cfg.webhook_secret == "") = false := by simpa using hsecret
  simp [handle_github, h1, hsig]

theorem c2_bad_signature_rejected_witness :
    handle_github (fun _ _ => "00") ⟨"s", "tut-ua/odoo-enterprise", "", []⟩
      "" "pull_request" [] none true =
      some ⟨⟨401, .str "Invalid signature"⟩, [], []⟩ :=
  c2_bad_signature_rejected (fun _ _ => "00")
    ⟨"s", "tut-ua/odoo-enterprise", "", []⟩ "" "pull_request" [] none true
    (by decide) (by rfl)

set_option maxHeartbeats 1000000 in
/-- C6: for a verified `pull_request` webhook — (a) any base branch other
than `staging` is ignored with a 200 and no publish; (b) actions
`opened`/`reopened`/`ready_for_review` publish `msg_pr_event` correlated
by the head branch with variables carrying the PR metadata and the
flattened staging (and, when configured, production) server fields;
(c) action `synchronize` publishes `msg_pr_updated` correlated by the PR
number rendered as a string. -/
theorem c6_pr_webhook_routing (cfg : WebhookCfg) (st : ServerConfig)
    (pr_number : Int)
    (action purl title login base_ref head_ref sha rfn : String)
    (publishOk : Bool)
    (hst : cfg.servers.lookup "staging" = some st) :
    (base_ref ≠ "staging" →
      route_pr_event cfg
        (prPayload action (prJson pr_number purl title login base_ref head_ref sha) rfn)
        publishOk =
      some ⟨⟨200, .obj [("status", .str "ignored"),
                        ("reason", .str ("base_branch=" ++ base_ref))]⟩, [], []⟩) ∧
    (base_ref = "staging" →
      action ∈ (["opened", "reopened", "ready_for_review"] : List String) →
      route_pr_event cfg
        (prPayload action (prJson pr_number purl title login base_ref head_ref sha) rfn)
        true =
      some ⟨⟨200, .obj [("status", .str "published"),
                        ("message", .str "msg_pr_event"),
                        ("pr_number", .num pr_number)]⟩,
        [⟨"msg_pr_event", .str head_ref,
          [("pr_number", .num pr_number), ("pr_url", .str purl),
           ("pr_title", .str title), ("pr_author", .str login),
           ("repository", .str rfn), ("base_branch", .str base_ref),
           ("head_branch", .str head_ref)]
          ++ serverFields "staging" st
          ++ optServerFields "production" (cfg.servers.lookup "production")⟩],
        []⟩) ∧
    (base_ref = "staging" → action = "synchronize" →
      route_pr_event cfg
        (prPayload action (prJson pr_number purl title login base_ref head_ref sha) rfn)
        true =
      some ⟨⟨200, .obj [("status", .str "published"),
                        ("message", .str "msg_pr_updated"),
                        ("pr_number", .num pr_number)]⟩,
        [⟨"msg_pr_updated", .str (toString pr_number),
          [("pr_updated", .bool true), ("head_sha", .str sha)]⟩], []⟩) := by
  refine ⟨?_, ?_, ?_⟩
  · intro h
    have hb : (base_ref == "staging") = false := by simpa using h
    simp only [route_pr_event, prPayload, prJson, Json.pyGet, dictGet,
      Json.isStr, Json.pyStr, hb, Option.bind_eq_bind, Option.some_bind,
      Option.pure_def, List.lookup, Option.getD_some, Option.getD_none,
      String.reduceBEq, String.reduceEq, reduceIte, Bool.not_true,
      Bool.not_false, Bool.false_eq_true, Bool.or_self, Bool.true_or,
      Bool.or_true, Bool.false_or]
  · intro hb hmem
    subst hb
    simp only [List.mem_cons, List.not_mem_nil, or_false] at hmem
    rcases hmem with rfl | rfl | rfl <;>
      simp only [route_pr_event, publish_pr_event, prPayload, prJson,
        Json.pyGet, dictGet, Json.isStr, optServerFields,
        Option.bind_eq_bind, Option.some_bind, Option.pure_def, List.lookup,
        Option.getD_some, Option.getD_none, List.cons_append,
        List.nil_append, hst, String.reduceBEq, String.reduceEq, reduceIte,
        Bool.not_true, Bool.not_false, Bool.false_eq_true, Bool.or_self,
        Bool.true_or, Bool.or_true, Bool.false_or]
  · intro hb ha
    subst hb; subst ha
    simp only [route_pr_event, publish_pr_updated, prPayload, prJson,
      Json.pyGet, dictGet, Json.isStr, Json.pyStr, Option.bind_eq_bind,
      Option.some_bind, Option.pure_def, List.lookup, Option.getD_some,
      Option.getD_none, String.reduceBEq, String.reduceEq, reduceIte,
      Bool.not_true, Bool.not_false, Bool.false_eq_true, Bool.or_self,
      Bool.true_or, Bool.or_true, Bool.false_or]

theorem c6_pr_webhook_routing_witness :
    route_pr_event
      ⟨"sec", "tut-ua/odoo-enterprise", "",
        [("staging", ⟨"s.example", "deploy", "/opt/odoo", "odoo19", "odoo19"⟩)]⟩
      (prPayload "opened" (prJson 42 "u" "T" "alice" "staging" "feat/x" "sha1")
        "tut-ua/odoo-enterprise") true =
    some ⟨⟨200, .obj [("status", .str "published"),
                      ("message", .str "msg_pr_event"),
                      ("pr_number", .num 42)]⟩,
      [⟨"msg_pr_event", .str "feat/x",
        [("pr_number", .num 42), ("pr_url", .str "u"), ("pr_title", .str "T"),
         ("pr_author", .str "alice"),
         ("repository", .str "tut-ua/odoo-enterprise"),
         ("base_branch", .str "staging"), ("head_branch", .str "feat/x")]
        ++ serverFields "staging" ⟨"s.example", "deploy", "/opt/odoo", "odoo19", "odoo19"⟩
        ++ optServerFields "production"
            (([("staging",
                (⟨"s.example", "deploy", "/opt/odoo", "odoo19", "odoo19"⟩ : ServerConfig))] :
              List (String × ServerConfig)).lookup "production")⟩], []⟩ :=
  (c6_pr_webhook_routing
    ⟨"sec", "tut-ua/odoo-enterprise", "",
      [("staging", ⟨"s.example", "deploy", "/opt/odoo", "odoo19", "odoo19"⟩)]⟩
    ⟨"s.example", "deploy", "/opt/odoo", "odoo19", "odoo19"⟩
    42 "opened" "u" "T" "alice" "staging" "feat/x" "sha1"
    "tut-ua/odoo-enterprise" true (by rfl)).2.1 rfl (by decide)

/-- C7 counterexample: an authenticated body carrying `task_id = "123"`
and `action = "cancel"` but no process-instance key does *not* trigger a
cancellation — the handler publishes `msg_odoo_task_done` instead (the
cancel branch also requires a non-empty `pik`). -/
theorem c7_counterexample :
    handle_odoo "" "" "" none
      (some (.obj [("task_id", .str "123"), ("action", .str "cancel")]))
      none true =
    some ⟨⟨200, .obj [("status", .str "published"),
                      ("message", .str "msg_odoo_task_done"),
                      ("correlation_key", .str "123")]⟩,
      [⟨"msg_odoo_task_done", .str "123",
        [("odoo_task_resolved", .bool true)]⟩], []⟩ := by rfl

/-- C7 (amended): for every authenticated POST to `/webhook/odoo` —
(i) a body carrying none of the three correlation keys yields a 400 with
no publish and no cancellation; (ii) `action=cancel` *with a non-empty
process-instance key* posts a cancellation for exactly that key to the
engine's REST endpoint, publishing nothing and treating an engine 404 as
"already terminated"; (iii) any other action publishes
`msg_odoo_task_done` correlated by the first non-empty of `task_id` /
`process_instance_key` (a cancel without a process-instance key also
takes this branch, see the counterexample). -/
theorem c7_odoo_routing_amended (expected auth qtoken : String)
    (qaction : Option String) (cancelHttp : Option Nat) (publishOk : Bool)
    (act : Option Json)
    (hauth : expected = "" ∨ odoo_request_token auth qtoken = expected) :
    (handle_odoo expected auth qtoken qaction
        (some (odooPayload none none none act)) cancelHttp publishOk =
      some ⟨⟨400, .str "Missing task_id or process_instance_key"⟩, [], []⟩) ∧
    (∀ p : String, p ≠ "" →
      handle_odoo expected auth qtoken qaction
          (some (odooPayload none (some (.str p)) none (some (.str "cancel"))))
          cancelHttp publishOk =
        some (cancel_process_instance p cancelHttp) ∧
      (cancel_process_instance p cancelHttp).cancels = [p] ∧
      (cancel_process_instance p cancelHttp).sent = [] ∧
      (cancelHttp = some 404 →
        (cancel_process_instance p cancelHttp).resp =
          ⟨200, .obj [("status", .str "already_terminated"),
                      ("process_instance_key", .str p)]⟩)) ∧
    (∀ a t p : String, a ≠ "cancel" → (if t != "" then t else p) ≠ "" →
      handle_odoo expected auth qtoken qaction
          (some (odooPayload (some (.str t)) (some (.str p)) none
            (some (.str a)))) cancelHttp true =
        some ⟨⟨200, .obj [("status", .str "published"),
                          ("message", .str "msg_odoo_task_done"),
                          ("correlation_key",
                            .str (if t != "" then t else p))]⟩,
          [⟨"msg_odoo_task_done", .str (if t != "" then t else p),
            [("odoo_task_resolved", .bool true)]⟩], []⟩) := by
  refine ⟨?_, ?_, ?_⟩
  · rw [handle_odoo_auth_ok _ _ _ _ _ _ _ hauth]
    cases act with
    | none =>
        simp [odoo_route, odooPayload, optEntry, Json.pyGet, dictGet,
          Json.truthy, Json.pyStr, List.lookup]
    | some v =>
        simp [odoo_route, odooPayload, optEntry, Json.pyGet, dictGet,
          Json.truthy, Json.pyStr, List.lookup]
  · intro p hp
    rw [handle_odoo_auth_ok _ _ _ _ _ _ _ hauth]
    have hp2 : (p != "") = true := by simpa using hp
    have hp3 : (p == "") = false := by simpa using hp
    refine ⟨?_, ?_, ?_, ?_⟩
    · simp [odoo_route, odooPayload, optEntry, Json.pyGet, dictGet,
        Json.truthy, Json.pyStr, Json.isStr, hp2, hp3, hp, List.lookup]
    · cases cancelHttp with
      | none => simp [cancel_process_instance]
      | some n =>
          simp only [cancel_process_instance]
          split
          · simp
          · split <;> simp
    · cases cancelHttp with
      | none => simp [cancel_process_instance]
      | some n =>
          simp only [cancel_process_instance]
          split
          · simp
          · split <;> simp
    · rintro rfl
      simp [cancel_process_instance]
  · intro a t p ha hcorr
    rw [handle_odoo_auth_ok _ _ _ _ _ _ _ hauth]
    have ha2 : (a == "cancel") = false := by simpa using ha
    by_cases ht : t = ""
    · subst ht
      simp only [bne_self_eq_false, Bool.false_eq_true, if_false] at hcorr ⊢
      have hp2 : (p != "") = true := by simpa using hcorr
      have hp3 : (p == "") = false := by simpa using hcorr
      simp [odoo_route, odooPayload, optEntry, Json.pyGet, dictGet,
        Json.truthy, Json.pyStr, Json.isStr, ha2, hp2, hp3, hcorr, List.lookup]
    · have ht2 : (t != "") = true := by simpa using ht
      have ht3 : (t == "") = false := by simpa using ht
      simp only [ht2, if_true] at hcorr ⊢
      simp [odoo_route, odooPayload, optEntry, Json.pyGet, dictGet,
        Json.truthy, Json.pyStr, Json.isStr, ha2, ht2, ht3, ht, List.lookup]

theorem c7_odoo_routing_amended_witness :
    handle_odoo "" "" "" none
        (some (odooPayload none (some (.str "555")) none
          (some (.str "cancel")))) (some 404) true =
      some (cancel_process_instance "555" (some 404)) ∧
    (cancel_process_instance "555" (some 404)).resp =
      ⟨200, .obj [("status", .str "already_terminated"),
                  ("process_instance_key", .str "555")]⟩ :=
  have h := (c7_odoo_routing_amended "" "" "" none (some 404) true none
    (Or.inl rfl)).2.1 "555" (by decide)
  ⟨h.1, h.2.2.2 rfl⟩

/-- C9: with an empty configured Odoo webhook token, `/webhook/odoo`
performs no token verification: any request (whatever its Authorization
header or token query parameter, including none) is handled exactly by
body parsing and routing, and is never answered 401. -/
theorem c9_empty_token_no_auth (auth_header qtoken : String)
    (qaction : Option String) (payload : Option Json)
    (cancelHttp : Option Nat) (publishOk : Bool) :
    handle_odoo "" auth_header qtoken qaction payload cancelHttp publishOk =
      odoo_route qaction payload cancelHttp publishOk ∧
    ∀ out,
      handle_odoo "" auth_header qtoken qaction payload cancelHttp publishOk =
        some out → out.resp.status ≠ 401 := by
  have h1 : handle_odoo "" auth_header qtoken qaction payload cancelHttp
      publishOk = odoo_route qaction payload cancelHttp publishOk := by
    simp [handle_odoo]
  refine ⟨h1, ?_⟩
  intro out hout
  rw [h1] at hout
  exact odoo_route_status_ne_401 qaction payload cancelHttp publishOk out hout

theorem c9_empty_token_no_auth_witness :
    handle_odoo "" "" "" none (some (.obj [("task_id", .str "7")])) none true =
      odoo_route none (some (.obj [("task_id", .str "7")])) none true ∧
    (⟨⟨200, .obj [("status", .str "published"),
                  ("message", .str "msg_odoo_task_done"),
                  ("correlation_key", .str "7")]⟩,
      [⟨"msg_odoo_task_done", .str "7",
        [("odoo_task_resolved", .bool true)]⟩], []⟩ : WebOutcome).resp.status
      ≠ 401 :=
  ⟨(c9_empty_token_no_auth "" "" none
      (some (.obj [("task_id", .str "7")])) none true).1,
   (c9_empty_token_no_auth "" "" none
      (some (.obj [("task_id", .str "7")])) none true).2 _ (by rfl)⟩

/-- C10: `create_pr` requests carry the deploy token's Authorization
header exactly when the deploy token is non-empty; with an empty deploy
token they silently fall back to the regular token. -/
theorem c10_create_pr_auth (token deploy_pat repo head base title body :
    String) (draft : Bool) :
    (deploy_pat ≠ "" →
        (create_pr token deploy_pat repo head base title body
            draft).headers.lookup "Authorization" =
          some ("Bearer " ++ deploy_pat)) ∧
    (deploy_pat = "" →
        (create_pr token deploy_pat repo head base title body
            draft).headers.lookup "Authorization" =
          some ("Bearer " ++ token)) := by
  constructor <;> intro h <;>
    simp [create_pr, gh_headers, List.lookup, h]

theorem c10_create_pr_auth_witness :
    (create_pr "tok" "dp" "o/r" "h" "b" "t" "" false).headers.lookup
        "Authorization" = some ("Bearer " ++ "dp") ∧
    (create_pr "tok" "" "o/r" "h" "b" "t" "" false).headers.lookup
        "Authorization" = some ("Bearer " ++ "tok") :=
  ⟨(c10_create_pr_auth "tok" "dp" "o/r" "h" "b" "t" "" false).1 (by decide),
   (c10_create_pr_auth "tok" "" "o/r" "h" "b" "t" "" false).2 rfl⟩

end CamundaWorker
